import Mathlib

/-!
Shallow embedding of `src/zv0_agent.py` (ZV.0 single-file code analysis
agent) and proofs about it.

The Python program parses an input text with `ast.parse`, walks the
resulting AST in breadth-first order (`ast.walk`), computes complexity
metrics, detects issues (dangerous bare-name calls; a loop-depth counter
for "deeply nested" loops), derives four quality scores, and on any
exception returns a fixed degenerate error report.

Modelling decisions:
* The Python AST is embedded as the inductive `PyNode`, keeping exactly
  the node distinctions the analyzer inspects (`If`, `For`, `While`,
  `BoolOp` with `And`/`Or` op, `FunctionDef`, `ClassDef`, `Call`, `Name`,
  `Attribute`), with a generic `other` constructor for all remaining node
  kinds.  A `BoolOp` node is represented as `boolAnd`/`boolOr` directly;
  counting these nodes agrees with Python's count of the `ast.And`/`ast.Or`
  operator children, since each `BoolOp` carries exactly one such operator.
* `ast.walk` is a FIFO breadth-first traversal that yields each popped
  node and enqueues its children; `walkAux` mirrors that queue loop, with
  a natural-number bound (`sizeOf` of the tree, an upper bound on the
  node count) making the recursion structural.
* `ast.parse` (the CPython parser, external library code) is a parameter
  `parse : String → Except String PyNode`: success gives the tree,
  failure gives the exception text `str(e)`.
* Python `int` scores are `Int` (they may go negative before the final
  `max(0, ·)` clamp); the float `comment_ratio` is modelled as `Rat`
  (the division of two small integer counts; exactness is irrelevant to
  the claims, which only compare with 0).
* Strings are Lean `String`; Python line splitting / stripping are
  mirrored character-by-character (`Char.isWhitespace` stands in for
  Python's whitespace class; the difference — `\x0b`, `\x0c` — does not
  affect any theorem below).
-/

/-- Python class `CodeIssue` (zv0_agent.py lines 19-25): severity, line
number, message, and a category that defaults to "general". -/
structure CodeIssue where
  severity : String
  line_number : Nat
  message : String
  category : String
deriving Repr, DecidableEq

/-- Python class `ComplexityMetrics` (lines 27-35).  `comment_ratio_q`
models the float field `comment_ratio` as an exact rational. -/
structure ComplexityMetrics where
  cyclomatic_complexity : Nat
  lines_of_code : Nat
  comment_ratio_q : Rat
  function_count : Nat
  class_count : Nat
deriving Repr, DecidableEq

/-- Python class `AnalysisReport` (lines 37-49). -/
structure AnalysisReport where
  overall_score : Int
  security_score : Int
  maintainability_score : Int
  performance_score : Int
  complexity_metrics : ComplexityMetrics
  issues : List CodeIssue
  suggestions : List String
deriving Repr, DecidableEq

/-- Embedding of the Python `ast` nodes the analyzer distinguishes.
Line numbers are the `lineno` attribute.  `other` covers every node kind
the analyzer treats generically (`Assign`, `Expr`, `Constant`, `Pass`,
an `arguments` node carrying default expressions, ...), keeping its
children so traversal still reaches nested nodes.  For `module`,
`functionDef` and `classDef` the child list is the node's full
`ast.iter_child_nodes` sequence (for a `FunctionDef` that includes the
`arguments` node, encodable as `other`).  Childless helper nodes that
match no `isinstance` check of the analyzer (`Load`/`Store` contexts,
operator tokens) are omitted: `ast.walk` yields them, but they can
never contribute an issue, a count or a traversal descendant, so no
analyzer output can depend on them. -/
inductive PyNode where
  | module (children : List PyNode)
  | functionDef (lineno : Nat) (children : List PyNode)
  | classDef (lineno : Nat) (children : List PyNode)
  | forStmt (lineno : Nat) (target : PyNode) (iter : PyNode)
      (body : List PyNode) (orelse : List PyNode)
  | whileStmt (lineno : Nat) (test : PyNode)
      (body : List PyNode) (orelse : List PyNode)
  | ifStmt (lineno : Nat) (test : PyNode)
      (body : List PyNode) (orelse : List PyNode)
  | boolAnd (lineno : Nat) (values : List PyNode)
  | boolOr (lineno : Nat) (values : List PyNode)
  | call (lineno : Nat) (func : PyNode) (args : List PyNode)
  | name (lineno : Nat) (ident : String)
  | attr (lineno : Nat) (value : PyNode) (attrName : String)
  | other (lineno : Nat) (children : List PyNode)

mutual

/-- Number of AST nodes in a tree (1 per node). -/
def PyNode.nsize : PyNode → Nat
  | .module b => nsizeList b + 1
  | .functionDef _ b => nsizeList b + 1
  | .classDef _ b => nsizeList b + 1
  | .forStmt _ t i b o => PyNode.nsize t + PyNode.nsize i + nsizeList b + nsizeList o + 1
  | .whileStmt _ t b o => PyNode.nsize t + nsizeList b + nsizeList o + 1
  | .ifStmt _ t b o => PyNode.nsize t + nsizeList b + nsizeList o + 1
  | .boolAnd _ vs => nsizeList vs + 1
  | .boolOr _ vs => nsizeList vs + 1
  | .call _ f args => PyNode.nsize f + nsizeList args + 1
  | .name _ _ => 1
  | .attr _ v _ => PyNode.nsize v + 1
  | .other _ cs => nsizeList cs + 1

/-- Total number of AST nodes in a forest. -/
def nsizeList : List PyNode → Nat
  | [] => 0
  | n :: ns => PyNode.nsize n + nsizeList ns

end

namespace PyNode

/-- Children of a node in field order, as `ast.iter_child_nodes` yields
them (fields that are not AST nodes — identifiers, strings — do not
appear; the omitted childless helper nodes are discussed at `PyNode`). -/
def children : PyNode → List PyNode
  | .module body => body
  | .functionDef _ body => body
  | .classDef _ body => body
  | .forStmt _ target iter body orelse => target :: iter :: (body ++ orelse)
  | .whileStmt _ test body orelse => test :: (body ++ orelse)
  | .ifStmt _ test body orelse => test :: (body ++ orelse)
  | .boolAnd _ values => values
  | .boolOr _ values => values
  | .call _ func args => func :: args
  | .name _ _ => []
  | .attr _ value _ => [value]
  | .other _ cs => cs

/-- BFS queue loop of `ast.walk`: pop a node, enqueue its children,
yield the popped node.  The `Nat` bound makes the recursion structural;
`walk` instantiates it with the exact node count: every node of the
tree is enqueued exactly once (when its parent is popped), so exactly
`nsize` pops drain the queue and the bound is never the limiting case. -/
def walkAux : Nat → List PyNode → List PyNode
  | 0, _ => []
  | _ + 1, [] => []
  | bound + 1, n :: rest => n :: walkAux bound (rest ++ n.children)

/-- Python `ast.walk(node)` as a list in yield order (BFS). -/
def walk (n : PyNode) : List PyNode := walkAux n.nsize [n]

end PyNode

namespace CodeAnalyzer

/-- The denylist of `CodeAnalyzer._analyze_code` (line 162). -/
def dangerousNames : List String := ["eval", "exec", "open"]

/-- One step of the security check (lines 158-168): a `Call` whose
`func` is a bare `Name` on the denylist yields a high-severity security
issue at the call's line. -/
def securityCheck (n : PyNode) : Option CodeIssue :=
  match n with
  | .call lineno (.name _ fid) _ =>
      if fid ∈ dangerousNames then
        some ⟨"high", lineno, "Potentially dangerous function: " ++ fid, "security"⟩
      else none
  | _ => none

/-- All security issues, in `ast.walk` order (lines 158-168). -/
def securityIssues (tree : PyNode) : List CodeIssue :=
  (PyNode.walk tree).filterMap securityCheck

/-- The loop-depth pass of `_analyze_code` (lines 170-183): over the
walk order, `for`/`while` increments the counter and emits an issue when
it exceeds 2; a `FunctionDef` resets it to 0; other nodes leave it. -/
def performancePass : List PyNode → Nat → List CodeIssue
  | [], _ => []
  | n :: rest, loop_depth =>
      match n with
      | .forStmt lineno _ _ _ _ =>
          (if loop_depth + 1 > 2 then
            [⟨"medium", lineno,
              "Deeply nested loops (depth " ++ toString (loop_depth + 1) ++ ")",
              "performance"⟩]
          else []) ++ performancePass rest (loop_depth + 1)
      | .whileStmt lineno _ _ _ =>
          (if loop_depth + 1 > 2 then
            [⟨"medium", lineno,
              "Deeply nested loops (depth " ++ toString (loop_depth + 1) ++ ")",
              "performance"⟩]
          else []) ++ performancePass rest (loop_depth + 1)
      | .functionDef _ _ => performancePass rest 0
      | _ => performancePass rest loop_depth

/-- Python `CodeAnalyzer._analyze_code` (lines 153-185): first the
security walk, then the loop-depth walk, appended in that order. -/
def analyzeIssues (tree : PyNode) : List CodeIssue :=
  securityIssues tree ++ performancePass (PyNode.walk tree) 0

/-- Python `str.strip()` on a line (whitespace from both ends). -/
def pyStrip (l : List Char) : List Char :=
  ((l.dropWhile Char.isWhitespace).reverse.dropWhile Char.isWhitespace).reverse

/-- Python `code.split('\n')`: split into lines; `''` gives `['']`. -/
def splitLines : List Char → List (List Char)
  | [] => [[]]
  | c :: cs =>
      if c = '\n' then [] :: splitLines cs
      else
        match splitLines cs with
        | [] => [[c]]
        | l :: ls => (c :: l) :: ls

/-- Whether a node is counted by the cyclomatic-complexity loop
(line 139): `isinstance(node, (ast.If, ast.For, ast.While, ast.And, ast.Or))`. -/
def isBranchNode : PyNode → Bool
  | .ifStmt _ _ _ _ => true
  | .forStmt _ _ _ _ _ => true
  | .whileStmt _ _ _ _ => true
  | .boolAnd _ _ => true
  | .boolOr _ _ => true
  | _ => false

/-- Whether a node is an `ast.FunctionDef` (line 142). -/
def isFunctionDef : PyNode → Bool
  | .functionDef _ _ => true
  | _ => false

/-- Whether a node is an `ast.ClassDef` (line 143). -/
def isClassDef : PyNode → Bool
  | .classDef _ _ => true
  | _ => false

/-- Python `CodeAnalyzer._calculate_metrics` (lines 131-151). -/
def calculate_metrics (tree : PyNode) (code : String) : ComplexityMetrics :=
  let lines := splitLines code.data
  let loc := (lines.filter (fun l => decide (pyStrip l ≠ []))).length
  let comment_lines :=
    (lines.filter (fun l =>
      match pyStrip l with
      | '#' :: _ => true
      | _ => false)).length
  let complexity := 1 + ((PyNode.walk tree).filter isBranchNode).length
  { cyclomatic_complexity := complexity
    lines_of_code := loc
    comment_ratio_q := if loc > 0 then (comment_lines : Rat) / (loc : Rat) else 0
    function_count := ((PyNode.walk tree).filter isFunctionDef).length
    class_count := ((PyNode.walk tree).filter isClassDef).length }

/-- The per-issue deduction of `_calculate_scores` (lines 196-202). -/
def deduction (i : CodeIssue) : Int :=
  if i.severity = "high" then 5
  else if i.severity = "medium" then 3
  else 1

/-- The four scores (the Python `scores` dict). -/
structure Scores where
  overall : Int
  security : Int
  maintainability : Int
  performance : Int
deriving Repr, DecidableEq

/-- One iteration of the issue loop of `_calculate_scores`
(lines 196-209): deduct from the category score when the category is
security or performance, and from overall unconditionally. -/
def applyIssue (s : Scores) (i : CodeIssue) : Scores :=
  let d := deduction i
  let s1 :=
    if i.category = "security" then { s with security := s.security - d }
    else if i.category = "performance" then { s with performance := s.performance - d }
    else s
  { s1 with overall := s1.overall - d }

/-- Python `CodeAnalyzer._calculate_scores` (lines 187-218): start each
score at 100, loop over the issues, apply the flat complexity penalty,
then clamp every score at 0. -/
def calculate_scores (issues : List CodeIssue) (metrics : ComplexityMetrics) : Scores :=
  let s0 : Scores := ⟨100, 100, 100, 100⟩
  let s1 := issues.foldl applyIssue s0
  let s2 :=
    if metrics.cyclomatic_complexity > 10 then
      { s1 with maintainability := s1.maintainability - 10, overall := s1.overall - 5 }
    else s1
  ⟨max 0 s2.overall, max 0 s2.security, max 0 s2.maintainability, max 0 s2.performance⟩

/-- Python `str.capitalize()`: first character upper-cased, the rest
lower-cased. -/
def pyCapitalize (s : String) : String :=
  match s.data with
  | [] => ""
  | c :: cs => ⟨c.toUpper :: cs.map Char.toLower⟩

/-- Python `CodeAnalyzer._generate_suggestions` (lines 220-222). -/
def generate_suggestions (issues : List CodeIssue) : List String :=
  issues.map (fun i => pyCapitalize i.category ++ ": " ++ i.message)

/-- Python `CodeAnalyzer._error_report` (lines 224-234): the degenerate
report returned on any analysis exception.  The single issue's category
is the `CodeIssue` default "general". -/
def error_report (error : String) : AnalysisReport :=
  { overall_score := 0
    security_score := 0
    maintainability_score := 0
    performance_score := 0
    complexity_metrics := ⟨0, 0, 0, 0, 0⟩
    issues := [⟨"high", 0, "Analysis error: " ++ error, "general"⟩]
    suggestions := ["Check your input code"] }

/-- Python `CodeAnalyzer.analyze_code` (lines 110-129).  `parse` stands
for `ast.parse` (CPython library code): `.ok` is a successful parse,
`.error e` an exception with text `e`.  The `language` and `file_path`
arguments are accepted and never read, exactly as in the source; inside
the `try`, only the parse can raise. -/
def analyze_code (parse : String → Except String PyNode)
    (code language file_path : String) : AnalysisReport :=
  match parse code with
  | .error e => error_report e
  | .ok tree =>
      let metrics := calculate_metrics tree code
      let issues := analyzeIssues tree
      let scores := calculate_scores issues metrics
      { overall_score := scores.overall
        security_score := scores.security
        maintainability_score := scores.maintainability
        performance_score := scores.performance
        complexity_metrics := metrics
        issues := issues
        suggestions := generate_suggestions issues }

end CodeAnalyzer

/-- The recognized analysis options of the configuration
(`_default_config`, lines 72-83, key "analysis"). -/
structure AnalysisConfig where
  security_checks : Bool
  performance_checks : Bool
deriving Repr, DecidableEq

/-- Python `ZV0Agent._default_config` (lines 72-83), analysis part:
both checks default to enabled. -/
def default_config : AnalysisConfig := ⟨true, true⟩

/-- Python class `ZV0Agent` (lines 51-105): holds the loaded
configuration and a `CodeAnalyzer` (which has no state of its own). -/
structure ZV0Agent where
  config : AnalysisConfig
deriving Repr, DecidableEq

/-- The success payload of `ZV0Agent.analyze_file` (lines 93-100). -/
structure FileResult where
  success : Bool
  overall_score : Int
  issue_count : Nat
  suggestions : List String
deriving Repr, DecidableEq

/-- Python `ZV0Agent.analyze_file` (lines 85-105) with the file's text
passed in place of the file read (the `except` branch only catches I/O
failures of that read; analysis errors are already absorbed by
`analyze_code`).  Note that `agent.config` is never consulted. -/
def ZV0Agent.analyze_file (agent : ZV0Agent)
    (parse : String → Except String PyNode)
    (code language file_path : String) : FileResult :=
  let report := CodeAnalyzer.analyze_code parse code language file_path
  { success := true
    overall_score := report.overall_score
    issue_count := report.issues.length
    suggestions := report.suggestions }

/-!
Concrete scenario inputs.  Each `progX` is a Python source text, `treeX`
is its CPython AST (`ast.parse(progX)`) transcribed into `PyNode`
(comments and blank-line structure do not appear in the AST; `Assign`,
`Expr`, `Pass` and `Constant` nodes map to `other`), and `parseX` is the
parser behaviour on it: success exactly on that text.
-/

/-- Scenario text: a bare call to `eval` at line 3, below a comment line
and an assignment. -/
def progA : String := "# sample\nx = 1\neval(x)"

/-- The CPython AST of `progA`:
`Module [Assign@2 [Name "x", Constant 1], Expr@3 (Call@3 (Name "eval") [Name "x"])]`. -/
def treeA : PyNode :=
  .module [
    .other 2 [.name 2 "x", .other 2 []],
    .other 3 [.call 3 (.name 3 "eval") [.name 3 "x"]]]

/-- Parser behaviour on `progA`. -/
def parseA : String → Except String PyNode :=
  fun s => if s = progA then .ok treeA else .error "invalid syntax"

/-- Scenario text: a function whose body is a triply nested `for` loop. -/
def progB : String :=
  "def f():\n    for i in a:\n        for j in b:\n            for k in c:\n                pass"

/-- The CPython AST of `progB`; the `FunctionDef`'s first child is its
(empty) `arguments` node, then the body. -/
def treeB : PyNode :=
  .module [.functionDef 1 [
    .other 1 [],
    .forStmt 2 (.name 2 "i") (.name 2 "a") [
      .forStmt 3 (.name 3 "j") (.name 3 "b") [
        .forStmt 4 (.name 4 "k") (.name 4 "c") [.other 5 []] []] []] []]]

/-- Parser behaviour on `progB`. -/
def parseB : String → Except String PyNode :=
  fun s => if s = progB then .ok treeB else .error "invalid syntax"

/-- Sequential (straight-line, top-level) text with three one-line `for`
statements followed by a bare `eval` call: the loop-depth counter —
which never resets outside function definitions and counts loops in
traversal order, not actual nesting — reaches 3 at line 3, while the
security walk reports line 4 first. -/
def progSeq : String :=
  "for a in b: pass\nfor c in d: pass\nfor e in f: pass\neval(g)"

/-- The CPython AST of `progSeq`. -/
def treeSeq : PyNode :=
  .module [
    .forStmt 1 (.name 1 "a") (.name 1 "b") [.other 1 []] [],
    .forStmt 2 (.name 2 "c") (.name 2 "d") [.other 2 []] [],
    .forStmt 3 (.name 3 "e") (.name 3 "f") [.other 3 []] [],
    .other 4 [.call 4 (.name 4 "eval") [.name 4 "g"]]]

/-- Parser behaviour on `progSeq`. -/
def parseSeq : String → Except String PyNode :=
  fun s => if s = progSeq then .ok treeSeq else .error "invalid syntax"

/-- Scenario text: a single bare `eval` call. -/
def progEval : String := "eval(x)"

/-- The CPython AST of `progEval`. -/
def treeEval : PyNode :=
  .module [.other 1 [.call 1 (.name 1 "eval") [.name 1 "x"]]]

/-- Parser behaviour on `progEval`. -/
def parseEval : String → Except String PyNode :=
  fun s => if s = progEval then .ok treeEval else .error "invalid syntax"

/-- The CPython AST of `"x = 1"`: one assignment, no comment lines. -/
def treeAssign : PyNode := .module [.other 1 [.name 1 "x", .other 1 []]]

/-!
Helper lemmas, shared by several claim theorems below.
-/

/-- The issue loop of `_calculate_scores` in closed form: overall loses
the sum of all deductions, security and performance lose the sums over
their categories, maintainability is untouched by the loop. -/
theorem foldl_applyIssue (issues : List CodeIssue) (s : CodeAnalyzer.Scores) :
    issues.foldl CodeAnalyzer.applyIssue s =
      ⟨s.overall - (issues.map CodeAnalyzer.deduction).sum,
       s.security -
         ((issues.filter fun i => i.category == "security").map CodeAnalyzer.deduction).sum,
       s.maintainability,
       s.performance -
         ((issues.filter fun i => i.category == "performance").map CodeAnalyzer.deduction).sum⟩ := by
  induction issues generalizing s with
  | nil => simp
  | cons i t ih =>
      rw [List.foldl_cons, ih]
      by_cases h1 : i.category = "security"
      · simp [CodeAnalyzer.applyIssue, List.filter_cons, h1]
        omega
      · by_cases h2 : i.category = "performance"
        · simp [CodeAnalyzer.applyIssue, List.filter_cons, h1, h2]
          omega
        · simp [CodeAnalyzer.applyIssue, List.filter_cons, h1, h2]
          omega

/-- `_calculate_scores` in closed form. -/
theorem calculate_scores_eq (issues : List CodeIssue) (m : ComplexityMetrics) :
    CodeAnalyzer.calculate_scores issues m =
      ⟨max 0 (100 - (issues.map CodeAnalyzer.deduction).sum
          - (if 10 < m.cyclomatic_complexity then 5 else 0)),
       max 0 (100 -
         ((issues.filter fun i => i.category == "security").map CodeAnalyzer.deduction).sum),
       max 0 (100 - (if 10 < m.cyclomatic_complexity then 10 else 0)),
       max 0 (100 -
         ((issues.filter fun i => i.category == "performance").map CodeAnalyzer.deduction).sum)⟩ := by
  simp only [CodeAnalyzer.calculate_scores]
  rw [foldl_applyIssue]
  by_cases hc : 10 < m.cyclomatic_complexity <;> simp [hc]

/-- Every per-issue deduction is nonnegative (it is 5, 3 or 1). -/
theorem deduction_nonneg (i : CodeIssue) : 0 ≤ CodeAnalyzer.deduction i := by
  unfold CodeAnalyzer.deduction
  split
  · omega
  · split <;> omega

/-- Sums of deductions are nonnegative. -/
theorem sum_deductions_nonneg (l : List CodeIssue) :
    0 ≤ (l.map CodeAnalyzer.deduction).sum := by
  apply List.sum_nonneg
  intro x hx
  obtain ⟨i, _, rfl⟩ := List.mem_map.mp hx
  exact deduction_nonneg i

/-- All four scores produced by `_calculate_scores` lie in `[0, 100]`. -/
theorem calculate_scores_bounds (issues : List CodeIssue) (m : ComplexityMetrics) :
    (0 ≤ (CodeAnalyzer.calculate_scores issues m).overall ∧
      (CodeAnalyzer.calculate_scores issues m).overall ≤ 100) ∧
    (0 ≤ (CodeAnalyzer.calculate_scores issues m).security ∧
      (CodeAnalyzer.calculate_scores issues m).security ≤ 100) ∧
    (0 ≤ (CodeAnalyzer.calculate_scores issues m).maintainability ∧
      (CodeAnalyzer.calculate_scores issues m).maintainability ≤ 100) ∧
    (0 ≤ (CodeAnalyzer.calculate_scores issues m).performance ∧
      (CodeAnalyzer.calculate_scores issues m).performance ≤ 100) := by
  rw [calculate_scores_eq]
  have h1 := sum_deductions_nonneg issues
  have h2 := sum_deductions_nonneg (issues.filter fun i => i.category == "security")
  have h3 := sum_deductions_nonneg (issues.filter fun i => i.category == "performance")
  refine ⟨⟨le_max_left 0 _, ?_⟩, ⟨le_max_left 0 _, ?_⟩,
    ⟨le_max_left 0 _, ?_⟩, ⟨le_max_left 0 _, ?_⟩⟩ <;>
    apply max_le (by omega) <;> (try split) <;> omega

/-- Inversion for one step of the security check: it answers `some`
only on a bare-name dangerous call, and then produces exactly the
high-severity security issue at the call's line. -/
theorem securityCheck_eq_some {n : PyNode} {i : CodeIssue}
    (h : CodeAnalyzer.securityCheck n = some i) :
    ∃ ln nln fid args, n = PyNode.call ln (.name nln fid) args ∧
      fid ∈ CodeAnalyzer.dangerousNames ∧
      i = ⟨"high", ln, "Potentially dangerous function: " ++ fid, "security"⟩ := by
  unfold CodeAnalyzer.securityCheck at h
  split at h
  · rename_i ln nln fid args
    by_cases hf : fid ∈ CodeAnalyzer.dangerousNames
    · rw [if_pos hf] at h
      exact ⟨ln, nln, fid, args, rfl, hf, (Option.some_inj.mp h).symm⟩
    · rw [if_neg hf] at h
      cases h
  · cases h

/-- Characterization of the security walk: an issue is produced exactly
for the bare-name dangerous calls appearing in `ast.walk` order. -/
theorem mem_securityIssues {tree : PyNode} {i : CodeIssue} :
    i ∈ CodeAnalyzer.securityIssues tree ↔
      ∃ ln nln fid args,
        PyNode.call ln (.name nln fid) args ∈ PyNode.walk tree ∧
        fid ∈ CodeAnalyzer.dangerousNames ∧
        i = ⟨"high", ln, "Potentially dangerous function: " ++ fid, "security"⟩ := by
  unfold CodeAnalyzer.securityIssues
  rw [List.mem_filterMap]
  constructor
  · rintro ⟨n, hn, hc⟩
    obtain ⟨ln, nln, fid, args, rfl, hf, rfl⟩ := securityCheck_eq_some hc
    exact ⟨ln, nln, fid, args, hn, hf, rfl⟩
  · rintro ⟨ln, nln, fid, args, hmem, hfid, rfl⟩
    exact ⟨_, hmem, by simp [CodeAnalyzer.securityCheck, hfid]⟩

/-- Every issue of the security walk carries category "security". -/
theorem securityIssues_category {tree : PyNode} {i : CodeIssue}
    (h : i ∈ CodeAnalyzer.securityIssues tree) : i.category = "security" := by
  obtain ⟨ln, nln, fid, args, _, _, rfl⟩ := mem_securityIssues.mp h
  rfl

/-- Every issue of the loop-depth pass is a medium-severity performance
issue whose message reports a depth above 2. -/
theorem mem_performancePass {ns : List PyNode} {d : Nat} {i : CodeIssue}
    (h : i ∈ CodeAnalyzer.performancePass ns d) :
    i.severity = "medium" ∧ i.category = "performance" ∧
      ∃ n : Nat, 2 < n ∧
        i.message = "Deeply nested loops (depth " ++ toString n ++ ")" := by
  induction ns generalizing d with
  | nil => simp [CodeAnalyzer.performancePass] at h
  | cons hd tl ih =>
      cases hd with
      | forStmt ln t it b o =>
          unfold CodeAnalyzer.performancePass at h
          rcases List.mem_append.mp h with hl | hr
          · by_cases hgt : d + 1 > 2
            · rw [if_pos hgt] at hl
              rcases List.mem_singleton.mp hl with rfl
              exact ⟨rfl, rfl, d + 1, hgt, rfl⟩
            · rw [if_neg hgt] at hl
              exact absurd hl (List.not_mem_nil i)
          · exact ih hr
      | whileStmt ln t b o =>
          unfold CodeAnalyzer.performancePass at h
          rcases List.mem_append.mp h with hl | hr
          · by_cases hgt : d + 1 > 2
            · rw [if_pos hgt] at hl
              rcases List.mem_singleton.mp hl with rfl
              exact ⟨rfl, rfl, d + 1, hgt, rfl⟩
            · rw [if_neg hgt] at hl
              exact absurd hl (List.not_mem_nil i)
          · exact ih hr
      | functionDef ln b => exact ih (by simpa [CodeAnalyzer.performancePass] using h)
      | module b => exact ih (by simpa [CodeAnalyzer.performancePass] using h)
      | classDef ln b => exact ih (by simpa [CodeAnalyzer.performancePass] using h)
      | ifStmt ln t b o => exact ih (by simpa [CodeAnalyzer.performancePass] using h)
      | boolAnd ln vs => exact ih (by simpa [CodeAnalyzer.performancePass] using h)
      | boolOr ln vs => exact ih (by simpa [CodeAnalyzer.performancePass] using h)
      | call ln f args => exact ih (by simpa [CodeAnalyzer.performancePass] using h)
      | name ln s => exact ih (by simpa [CodeAnalyzer.performancePass] using h)
      | attr ln v a => exact ih (by simpa [CodeAnalyzer.performancePass] using h)
      | other ln cs => exact ih (by simpa [CodeAnalyzer.performancePass] using h)

/-!
Claim theorems.
-/

/-- C1: for every input text — whether parsing succeeds or fails — the
report returned by `analyze_code` has all four scores in `[0, 100]`:
they start at 100, only decrease via issue- and metric-driven
deductions, and are finally clamped at 0 (the error report sets them
all to 0 directly). -/
theorem C1_scores_in_range (parse : String → Except String PyNode)
    (code language file_path : String) :
    (0 ≤ (CodeAnalyzer.analyze_code parse code language file_path).overall_score ∧
      (CodeAnalyzer.analyze_code parse code language file_path).overall_score ≤ 100) ∧
    (0 ≤ (CodeAnalyzer.analyze_code parse code language file_path).security_score ∧
      (CodeAnalyzer.analyze_code parse code language file_path).security_score ≤ 100) ∧
    (0 ≤ (CodeAnalyzer.analyze_code parse code language file_path).maintainability_score ∧
      (CodeAnalyzer.analyze_code parse code language file_path).maintainability_score ≤ 100) ∧
    (0 ≤ (CodeAnalyzer.analyze_code parse code language file_path).performance_score ∧
      (CodeAnalyzer.analyze_code parse code language file_path).performance_score ≤ 100) := by
  unfold CodeAnalyzer.analyze_code
  cases hp : parse code with
  | error e => norm_num [CodeAnalyzer.error_report]
  | ok tree =>
      exact calculate_scores_bounds (CodeAnalyzer.analyzeIssues tree)
        (CodeAnalyzer.calculate_metrics tree code)

/-- C2: when parsing fails, `analyze_code` does not fail but returns
the degenerate report: all four scores 0, zeroed metrics, exactly one
issue (severity high, line 0, category general, message
"Analysis error: <cause>") and exactly one suggestion
"Check your input code". -/
theorem C2_error_path (parse : String → Except String PyNode)
    (code language file_path e : String) (h : parse code = .error e) :
    CodeAnalyzer.analyze_code parse code language file_path =
      { overall_score := 0
        security_score := 0
        maintainability_score := 0
        performance_score := 0
        complexity_metrics := ⟨0, 0, 0, 0, 0⟩
        issues := [⟨"high", 0, "Analysis error: " ++ e, "general"⟩]
        suggestions := ["Check your input code"] } := by
  unfold CodeAnalyzer.analyze_code
  rw [h]
  rfl

/-- Witness for C2 at a concrete failing parse. -/
theorem C2_error_path_witness :
    CodeAnalyzer.analyze_code (fun _ => .error "invalid syntax") "def f(:" "python" "bad.py" =
      { overall_score := 0
        security_score := 0
        maintainability_score := 0
        performance_score := 0
        complexity_metrics := ⟨0, 0, 0, 0, 0⟩
        issues := [⟨"high", 0, "Analysis error: " ++ "invalid syntax", "general"⟩]
        suggestions := ["Check your input code"] } :=
  C2_error_path (fun _ => .error "invalid syntax") "def f(:" "python" "bad.py"
    "invalid syntax" rfl

/-- C3 (code bug): the loaded configuration is never consulted by the
analysis.  `analyze_file` produces the same result for any two agents —
in particular for one whose `security_checks` and `performance_checks`
are both `false` — and with both checks disabled the dangerous-call
rule still fires on `eval(x)`. -/
theorem C3_configuration_not_consumed :
    (∀ (a b : ZV0Agent) (parse : String → Except String PyNode)
        (code language file_path : String),
        ZV0Agent.analyze_file a parse code language file_path =
          ZV0Agent.analyze_file b parse code language file_path) ∧
    default_config = ⟨true, true⟩ ∧
    (ZV0Agent.analyze_file ⟨⟨false, false⟩⟩ parseEval progEval "python" "x.py").issue_count = 1 ∧
    (ZV0Agent.analyze_file ⟨⟨false, false⟩⟩ parseEval progEval "python" "x.py").suggestions =
      ["Security: Potentially dangerous function: eval"] :=
  ⟨fun _ _ _ _ _ _ => rfl, rfl, by decide, by decide⟩

/-- C4 counterexample: for the sequential four-line program `progSeq`
(three one-line top-level `for` statements, then `eval(g)` at line 4),
the returned issue list maps to line numbers `[4, 3]`: the security
issue at line 4 precedes the performance issue at line 3, so the line
numbers are not non-decreasing across all issues. -/
theorem C4_counterexample :
    ((CodeAnalyzer.analyze_code parseSeq progSeq "python" "s.py").issues.map
        CodeIssue.line_number = [4, 3]) ∧
    ¬ List.Chain' (· ≤ ·)
        ((CodeAnalyzer.analyze_code parseSeq progSeq "python" "s.py").issues.map
          CodeIssue.line_number) := by
  have hmap : (CodeAnalyzer.analyze_code parseSeq progSeq "python" "s.py").issues.map
      CodeIssue.line_number = [4, 3] := by decide
  refine ⟨hmap, ?_⟩
  rw [hmap]
  simp [List.chain'_cons]

/-- C4 amended: the issue detector returns all dangerous-call
(security) issues, in traversal order, followed by all nested-loop
(performance) issues, in traversal order — the list equals its
security part followed by its performance part; line numbers are
ordered within each part (for sequential code) but not across the
two parts. -/
theorem C4_amended (tree : PyNode) :
    CodeAnalyzer.analyzeIssues tree =
      (CodeAnalyzer.analyzeIssues tree).filter (fun i => i.category == "security") ++
        (CodeAnalyzer.analyzeIssues tree).filter (fun i => i.category == "performance") := by
  unfold CodeAnalyzer.analyzeIssues
  rw [List.filter_append, List.filter_append]
  have hs : (CodeAnalyzer.securityIssues tree).filter (fun i => i.category == "security") =
      CodeAnalyzer.securityIssues tree := by
    apply List.filter_eq_self.mpr
    intro i hi
    simp [securityIssues_category hi]
  have hp : (CodeAnalyzer.performancePass (PyNode.walk tree) 0).filter
        (fun i => i.category == "performance") =
      CodeAnalyzer.performancePass (PyNode.walk tree) 0 := by
    apply List.filter_eq_self.mpr
    intro i hi
    simp [(mem_performancePass hi).2.1]
  have hs0 : (CodeAnalyzer.securityIssues tree).filter (fun i => i.category == "performance") =
      [] := by
    apply List.filter_eq_nil_iff.mpr
    intro i hi
    simp [securityIssues_category hi]
  have hp0 : (CodeAnalyzer.performancePass (PyNode.walk tree) 0).filter
        (fun i => i.category == "security") = [] := by
    apply List.filter_eq_nil_iff.mpr
    intro i hi
    simp [(mem_performancePass hi).2.1]
  rw [hs, hp, hs0, hp0, List.append_nil, List.nil_append]

/-- C5: every issue the nested-loop rule emits has severity medium,
category performance and message "Deeply nested loops (depth n)" for
some depth n exceeding 2; and on the function with the triply nested
`for` loop (`progB`) exactly one such issue is emitted, for the
innermost loop (line 4) at depth 3, with a performance score of 97. -/
theorem C5_nested_loop_rule :
    (∀ (ns : List PyNode) (d : Nat) (i : CodeIssue),
        i ∈ CodeAnalyzer.performancePass ns d →
          i.severity = "medium" ∧ i.category = "performance" ∧
            ∃ n : Nat, 2 < n ∧
              i.message = "Deeply nested loops (depth " ++ toString n ++ ")") ∧
    (CodeAnalyzer.analyze_code parseB progB "python" "b.py").issues =
        [⟨"medium", 4, "Deeply nested loops (depth 3)", "performance"⟩] ∧
    (CodeAnalyzer.analyze_code parseB progB "python" "b.py").performance_score = 97 :=
  ⟨fun _ _ _ h => mem_performancePass h, by decide, by decide⟩

/-- Witness for C5: the rule's output on the triply nested loop walk
contains the depth-3 issue, and the general part applies to it. -/
theorem C5_nested_loop_rule_witness :
    (⟨"medium", 4, "Deeply nested loops (depth 3)", "performance"⟩ : CodeIssue).severity =
        "medium" ∧
    (⟨"medium", 4, "Deeply nested loops (depth 3)", "performance"⟩ : CodeIssue).category =
        "performance" ∧
    ∃ n : Nat, 2 < n ∧
      (⟨"medium", 4, "Deeply nested loops (depth 3)", "performance"⟩ : CodeIssue).message =
        "Deeply nested loops (depth " ++ toString n ++ ")" :=
  C5_nested_loop_rule.1 (PyNode.walk treeB) 0
    ⟨"medium", 4, "Deeply nested loops (depth 3)", "performance"⟩ (by decide)

/-- C6: the score calculator deducts per issue by severity (high 5,
medium 3, anything else 1), from overall always and from the security /
performance score exactly for those categories; complexity above 10
costs a flat 10 on maintainability and 5 on overall; hence with
complexity above 10 and no issues the scores are 95/100/90/100. -/
theorem C6_score_deductions (issues : List CodeIssue) (m : ComplexityMetrics) :
    (CodeAnalyzer.calculate_scores issues m).overall =
        max 0 (100 - (issues.map CodeAnalyzer.deduction).sum -
          (if 10 < m.cyclomatic_complexity then 5 else 0)) ∧
    (CodeAnalyzer.calculate_scores issues m).security =
        max 0 (100 -
          ((issues.filter fun i => i.category == "security").map CodeAnalyzer.deduction).sum) ∧
    (CodeAnalyzer.calculate_scores issues m).performance =
        max 0 (100 -
          ((issues.filter fun i => i.category == "performance").map CodeAnalyzer.deduction).sum) ∧
    (CodeAnalyzer.calculate_scores issues m).maintainability =
        max 0 (100 - (if 10 < m.cyclomatic_complexity then 10 else 0)) ∧
    (∀ i : CodeIssue, CodeAnalyzer.deduction i =
        if i.severity = "high" then 5 else if i.severity = "medium" then 3 else 1) ∧
    (10 < m.cyclomatic_complexity →
        CodeAnalyzer.calculate_scores [] m = ⟨95, 100, 90, 100⟩) := by
  refine ⟨?_, ?_, ?_, ?_, fun i => rfl, fun hc => ?_⟩
  · rw [calculate_scores_eq]
  · rw [calculate_scores_eq]
  · rw [calculate_scores_eq]
  · rw [calculate_scores_eq]
  · rw [calculate_scores_eq]
    simp [hc]

/-- Witness for C6: concrete metrics with complexity 11 and no issues
give maintainability 90, overall 95 and untouched security and
performance scores. -/
theorem C6_score_deductions_witness :
    CodeAnalyzer.calculate_scores [] ⟨11, 0, 0, 0, 0⟩ = ⟨95, 100, 90, 100⟩ :=
  (C6_score_deductions [] ⟨11, 0, 0, 0, 0⟩).2.2.2.2.2 (by norm_num)

/-- C7: permuting the issue list does not change any of the four final
scores — the deduction loop is a pure order-independent summation. -/
theorem C7_order_independence (issues1 issues2 : List CodeIssue)
    (m : ComplexityMetrics) (h : issues1.Perm issues2) :
    CodeAnalyzer.calculate_scores issues1 m = CodeAnalyzer.calculate_scores issues2 m := by
  rw [calculate_scores_eq, calculate_scores_eq]
  rw [List.Perm.sum_eq (List.Perm.map CodeAnalyzer.deduction h)]
  rw [List.Perm.sum_eq (List.Perm.map CodeAnalyzer.deduction
    (List.Perm.filter (fun i => i.category == "security") h))]
  rw [List.Perm.sum_eq (List.Perm.map CodeAnalyzer.deduction
    (List.Perm.filter (fun i => i.category == "performance") h))]

/-- Witness for C7 on a concrete two-element permutation. -/
theorem C7_order_independence_witness :
    CodeAnalyzer.calculate_scores
        [⟨"high", 1, "a", "security"⟩, ⟨"medium", 2, "b", "performance"⟩] ⟨1, 0, 0, 0, 0⟩ =
      CodeAnalyzer.calculate_scores
        [⟨"medium", 2, "b", "performance"⟩, ⟨"high", 1, "a", "security"⟩] ⟨1, 0, 0, 0, 0⟩ :=
  C7_order_independence _ _ ⟨1, 0, 0, 0, 0⟩ (List.Perm.swap _ _ _)

/-- C8: the dangerous-call rule emits, for every call whose callee is a
bare name on the denylist appearing in the walk, the high-severity
security issue at the call's line with message
"Potentially dangerous function: <name>"; conversely every security
issue originates from such a bare-name call (attribute or indirect
calls never match); and on `progA` (bare `eval(x)` at line 3) exactly
one issue is produced, at line 3, with security and overall score 95. -/
theorem C8_dangerous_call_rule :
    (∀ (tree n : PyNode), n ∈ PyNode.walk tree →
      ∀ (ln nln : Nat) (fid : String) (args : List PyNode),
        n = PyNode.call ln (.name nln fid) args →
        fid ∈ CodeAnalyzer.dangerousNames →
        (⟨"high", ln, "Potentially dangerous function: " ++ fid, "security"⟩ : CodeIssue) ∈
          CodeAnalyzer.analyzeIssues tree) ∧
    (∀ (tree : PyNode) (i : CodeIssue), i ∈ CodeAnalyzer.securityIssues tree →
      ∃ ln nln fid args,
        PyNode.call ln (.name nln fid) args ∈ PyNode.walk tree ∧
        fid ∈ CodeAnalyzer.dangerousNames ∧
        i = ⟨"high", ln, "Potentially dangerous function: " ++ fid, "security"⟩) ∧
    (CodeAnalyzer.analyze_code parseA progA "python" "a.py").issues =
        [⟨"high", 3, "Potentially dangerous function: eval", "security"⟩] ∧
    (CodeAnalyzer.analyze_code parseA progA "python" "a.py").security_score = 95 ∧
    (CodeAnalyzer.analyze_code parseA progA "python" "a.py").overall_score = 95 := by
  refine ⟨?_, ?_, by decide, by decide, by decide⟩
  · rintro tree n hn ln nln fid args rfl hf
    exact List.mem_append_left _ (mem_securityIssues.mpr ⟨ln, nln, fid, args, hn, hf, rfl⟩)
  · intro tree i hi
    exact mem_securityIssues.mp hi

/-- Witness for C8: the `eval` call node of `treeA` is in its walk, and
the rule emits the corresponding issue. -/
theorem C8_dangerous_call_rule_witness :
    (⟨"high", 3, "Potentially dangerous function: " ++ "eval", "security"⟩ : CodeIssue) ∈
      CodeAnalyzer.analyzeIssues treeA :=
  C8_dangerous_call_rule.1 treeA (.call 3 (.name 3 "eval") [.name 3 "x"])
    (List.Mem.tail _ (List.Mem.tail _ (List.Mem.tail _ (List.Mem.tail _
      (List.Mem.tail _ (List.Mem.head _))))))
    3 3 "eval" [.name 3 "x"] rfl (List.Mem.head _)

/-- C9 counterexample: for the one-line program `"x = 1"` (whose AST is
`treeAssign`) the comment ratio is 0 while `lines_of_code` is 1, so
"comment_ratio = 0 exactly when lines_of_code = 0" fails in the
right-to-left direction. -/
theorem C9_counterexample :
    ¬ ((CodeAnalyzer.calculate_metrics treeAssign "x = 1").comment_ratio_q = 0 ↔
        (CodeAnalyzer.calculate_metrics treeAssign "x = 1").lines_of_code = 0) := by
  intro h
  have h2 : (CodeAnalyzer.calculate_metrics treeAssign "x = 1").comment_ratio_q = 0 := by
    simp [CodeAnalyzer.calculate_metrics, CodeAnalyzer.splitLines, CodeAnalyzer.pyStrip]
  exact absurd (h.mp h2) (by decide)

/-- C9 amended: `comment_ratio` is 0 whenever `lines_of_code` is 0 (the
division is guarded by `if loc > 0`, so no division-by-zero fault can
occur); the converse does not hold, since a comment-free non-empty text
also has ratio 0. -/
theorem C9_amended (tree : PyNode) (code : String)
    (h : (CodeAnalyzer.calculate_metrics tree code).lines_of_code = 0) :
    (CodeAnalyzer.calculate_metrics tree code).comment_ratio_q = 0 := by
  simp only [CodeAnalyzer.calculate_metrics] at h ⊢
  rw [h]
  simp

/-- Witness for C9 amended: the empty text has no lines of code and
ratio 0. -/
theorem C9_amended_witness :
    (CodeAnalyzer.calculate_metrics (.module []) "").comment_ratio_q = 0 :=
  C9_amended (.module []) "" (by decide)

/-- C10: the analysis result depends only on the source text: the
`language` and `file_path` arguments of `analyze_code` are never read
(the text is handed to the same parser regardless), so two calls with
the same text and parser but different tags and labels return
identical reports. -/
theorem C10_depends_only_on_text (parse : String → Except String PyNode)
    (code language1 file_path1 language2 file_path2 : String) :
    CodeAnalyzer.analyze_code parse code language1 file_path1 =
      CodeAnalyzer.analyze_code parse code language2 file_path2 := rfl
